import Mathlib

/-!
# Verification of the self-healing OPA remediation pipeline

A shallow embedding of the core of the `self_healing_agent` package:

* `subagents/tools/opa_tools.py` — `run_opa_eval`, `parse_opa_json`,
  `validate_terraform`;
* `subagents/tools/loop_control.py` — `exit_loop`;
* `config.py` — `get_max_iterations`;
* `orchestrator.py` — the `fix_loop` `LoopAgent` and the `loop_decision`
  agent;
* `subagents/build_verification/verification_aggregator.py` and
  `opa_evaluator.py` — prompt-driven agents whose instruction strings are
  deterministic pseudocode; those instructions are embedded as pure
  functions over the shared state.

Python dictionaries / JSON values are modelled by `PyVal`; Python
exceptions inside `parse_opa_json` are modelled explicitly so that the
"never raises" behaviour of the `try/except` wrapper is a theorem rather
than an assumption.  External subprocesses are modelled by a "world"
record providing the outcome of each call, and each embedded function
additionally returns the trace of subprocess invocations it performed,
each invocation carrying the (optional) timeout it was given.
-/

namespace SelfHealing

/-- A Python/JSON-ish value: the dynamic values flowing through
`opa_tools.py`.  Dictionaries are association lists with string keys in
insertion order (Python 3.7+ dicts preserve insertion order). -/
inductive PyVal where
  | str : String → PyVal
  | int : Int → PyVal
  | bool : Bool → PyVal
  | none : PyVal
  | list : List PyVal → PyVal
  | dict : List (String × PyVal) → PyVal
  deriving Repr

mutual

/-- Structural equality on `PyVal` (Python `==` restricted to these
value forms). -/
def PyVal.beq : PyVal → PyVal → Bool
  | .str a, .str b => a = b
  | .int a, .int b => a = b
  | .bool a, .bool b => a = b
  | .none, .none => true
  | .list xs, .list ys => PyVal.beqList xs ys
  | .dict xs, .dict ys => PyVal.beqDict xs ys
  | _, _ => false

/-- Elementwise `PyVal.beq` on lists. -/
def PyVal.beqList : List PyVal → List PyVal → Bool
  | [], [] => true
  | x :: xs, y :: ys => PyVal.beq x y && PyVal.beqList xs ys
  | _, _ => false

/-- Pairwise `PyVal.beq` on association lists. -/
def PyVal.beqDict : List (String × PyVal) → List (String × PyVal) → Bool
  | [], [] => true
  | (k, x) :: xs, (l, y) :: ys => k = l && PyVal.beq x y && PyVal.beqDict xs ys
  | _, _ => false

end

instance : BEq PyVal := ⟨PyVal.beq⟩

/-- First-match lookup in a Python dict (keys are unique in real dicts,
so first match is the match). -/
def dictGet : List (String × PyVal) → String → Option PyVal
  | [], _ => Option.none
  | (k, v) :: kvs, key => if k = key then some v else dictGet kvs key

/-- Python `key in d` for dicts: key membership. -/
def hasKey (kvs : List (String × PyVal)) (key : String) : Bool :=
  (dictGet kvs key).isSome

/-- The Python exceptions that the modelled code can raise. -/
inductive PyExc where
  | typeError
  | attributeError
  | keyError
  deriving Repr, DecidableEq

/-- Whether `pat` occurs at the head of `l`. -/
def charsStartWith : List Char → List Char → Bool
  | _, [] => true
  | [], _ :: _ => false
  | c :: cs, d :: ds => c = d && charsStartWith cs ds

/-- Whether `needle` occurs somewhere in `l` (an empty needle always
does). -/
def charsContain (needle : List Char) : List Char → Bool
  | [] => needle.isEmpty
  | c :: cs => charsStartWith (c :: cs) needle || charsContain needle cs

/-- Python `needle in haystack` for strings: substring test. -/
def strContains (haystack needle : String) : Bool :=
  charsContain needle.data haystack.data

/-- Python `x in container`: dict → key membership, list → element
membership, str → substring; anything else raises `TypeError`. -/
def pyContains (container : PyVal) (key : String) : Except PyExc Bool :=
  match container with
  | .dict kvs => .ok (hasKey kvs key)
  | .list xs => .ok (xs.contains (.str key))
  | .str s => .ok (strContains s key)
  | _ => .error .typeError

/-- Python `container[key]` with a string key: only dicts support string
subscripts (missing key → `KeyError`); lists/strings want integer indices
(`TypeError`), everything else is not subscriptable (`TypeError`). -/
def pySubscript (container : PyVal) (key : String) : Except PyExc PyVal :=
  match container with
  | .dict kvs =>
    match dictGet kvs key with
    | some v => .ok v
    | Option.none => .error .keyError
  | _ => .error .typeError

/-- Python `for x in v`: lists yield elements, strings yield one-character
strings, dicts yield their keys; anything else raises `TypeError`. -/
def pyIter : PyVal → Except PyExc (List PyVal)
  | .list xs => .ok xs
  | .str s => .ok (s.data.map fun c => .str (String.mk [c]))
  | .dict kvs => .ok (kvs.map fun kv => .str kv.1)
  | _ => .error .typeError

/-- One extracted policy violation, as appended by `parse_opa_json`:
`{"package": pkg, "message": msg, "severity": "high"}`. -/
structure Violation where
  package : String
  message : PyVal
  severity : String
  deriving Repr

/-- The `deny` branch of `parse_opa_json`: messages are appended only when
the `deny` value `isinstance(..., list)`; otherwise nothing is appended
(and nothing is raised). -/
def parseDenials (pkg : String) (denials : PyVal) : List Violation :=
  match denials with
  | .list ds => ds.map fun d => ⟨pkg, d, "high"⟩
  | _ => []

/-- Per-package body of `parse_opa_json`'s innermost loop: non-dict
contents are skipped (`isinstance` guard); a `deny` key takes priority
(`elif`), guarded by a list check; otherwise a `violation` key is iterated
(possibly raising `TypeError` when its value is not iterable).  Returns the
violations appended plus the exception, if one was raised. -/
def packageViolations (pkg : String) (content : PyVal) :
    List Violation × Option PyExc :=
  match content with
  | .dict kvs =>
    if hasKey kvs "deny" then
      match dictGet kvs "deny" with
      | some denials => (parseDenials pkg denials, Option.none)
      | Option.none => ([], Option.none)
    else
      match dictGet kvs "violation" with
      | some vs =>
        match pyIter vs with
        | .ok items => (items.map fun v => (⟨pkg, v, "high"⟩ : Violation), Option.none)
        | .error e => ([], some e)
      | Option.none => ([], Option.none)
  | _ => ([], Option.none)

/-- Run `f` over a list, accumulating violations, stopping at the first
exception (Python loop semantics: items appended before the raise are
kept). -/
def accumViolations {α : Type} (f : α → List Violation × Option PyExc) :
    List α → List Violation × Option PyExc
  | [] => ([], Option.none)
  | x :: xs =>
    match f x with
    | (vs, some e) => (vs, some e)
    | (vs, Option.none) =>
      let rest := accumViolations f xs
      (vs ++ rest.1, rest.2)

/-- Per-expression body: `value = expr.get('value', {})` requires `expr` to
be a dict (`AttributeError` otherwise); `value.items()` requires `value` to
be a dict (`AttributeError` otherwise); then each `(pkg_name, pkg_content)`
pair is processed. -/
def exprViolations (expr : PyVal) : List Violation × Option PyExc :=
  match expr with
  | .dict kvs =>
    let value := (dictGet kvs "value").getD (.dict [])
    match value with
    | .dict vkvs => accumViolations (fun kv => packageViolations kv.1 kv.2) vkvs
    | _ => ([], some .attributeError)
  | _ => ([], some .attributeError)

/-- Per-result body: `if 'expressions' in res: for expr in res['expressions']`. -/
def resViolations (res : PyVal) : List Violation × Option PyExc :=
  match pyContains res "expressions" with
  | .error e => ([], some e)
  | .ok false => ([], Option.none)
  | .ok true =>
    match pySubscript res "expressions" with
    | .error e => ([], some e)
    | .ok exprs =>
      match pyIter exprs with
      | .error e => ([], some e)
      | .ok items => accumViolations exprViolations items

/-- The whole `try` block of `parse_opa_json`: the violations accumulated
plus the exception that aborted the traversal, if any. -/
def parseCore (opa_output : PyVal) : List Violation × Option PyExc :=
  match pyContains opa_output "result" with
  | .error e => ([], some e)
  | .ok false => ([], Option.none)
  | .ok true =>
    match pySubscript opa_output "result" with
    | .error e => ([], some e)
    | .ok results =>
      match pyIter results with
      | .error e => ([], some e)
      | .ok items => accumViolations resViolations items

/-- `parse_opa_json` (opa_tools.py): the `try/except` wrapper swallows any
exception and returns the violations accumulated so far — so the function
is exactly the first component of `parseCore`. -/
def parse_opa_json (opa_output : PyVal) : List Violation :=
  (parseCore opa_output).1

/-- Dict field access on a `PyVal` (`none` when the value is not a dict or
the key is absent); used to state properties of returned result dicts. -/
def pvGet (v : PyVal) (key : String) : Option PyVal :=
  match v with
  | .dict kvs => dictGet kvs key
  | _ => Option.none

/-! ## Subprocess model

Each `subprocess.run` call in the source is recorded as a `SubprocCall`
carrying the argv, the working directory, and the timeout that was passed
(`Option.none` when the source passes no `timeout=` argument).  The outcome
of each call is supplied by a "world" record, and each embedded function
returns the trace of calls it actually issued, in order. -/

/-- Outcome of one `subprocess.run(..., capture_output=True, text=True)`. -/
structure ProcResult where
  returncode : Int
  stdout : String
  stderr : String
  deriving Repr, DecidableEq

/-- One subprocess invocation as issued by the source code. -/
structure SubprocCall where
  argv : List String
  cwd : String
  timeout : Option Nat
  deriving Repr, DecidableEq

/-- `["terraform", "validate", "-json"]` run in `path`; the source passes
no `timeout=` argument to `subprocess.run`. -/
def terraformValidateCall (path : String) : SubprocCall :=
  ⟨["terraform", "validate", "-json"], path, Option.none⟩

/-- `["terraform", "init", "-input=false", "-no-color"]` run in `path`;
no `timeout=` argument. -/
def terraformInitCall (path : String) : SubprocCall :=
  ⟨["terraform", "init", "-input=false", "-no-color"], path, Option.none⟩

/-- `["terraform", "plan", "-out=tfplan", "-input=false", "-no-color"]`;
no `timeout=` argument. -/
def terraformPlanCall (repo : String) : SubprocCall :=
  ⟨["terraform", "plan", "-out=tfplan", "-input=false", "-no-color"], repo, Option.none⟩

/-- `["terraform", "show", "-json", "tfplan"]`; no `timeout=` argument. -/
def terraformShowCall (repo : String) : SubprocCall :=
  ⟨["terraform", "show", "-json", "tfplan"], repo, Option.none⟩

/-- `["opa", "eval", "-i", plan_json, "-d", policy, "data", "-f", "json"]`;
no `timeout=` argument. -/
def opaEvalCall (repo policy planJson : String) : SubprocCall :=
  ⟨["opa", "eval", "-i", planJson, "-d", policy, "data", "-f", "json"], repo, Option.none⟩

/-! ## `validate_terraform` (opa_tools.py) -/

/-- World for one `validate_terraform` run: the outcomes of the (up to
three) subprocess calls it can make, plus the behaviour of `json.loads`
(`Option.none` models a `JSONDecodeError`). -/
structure TfWorld where
  validate1 : ProcResult
  init : ProcResult
  validate2 : ProcResult
  jsonParse : String → Option PyVal

/-- The missing-provider test of `validate_terraform`: the combined
`stderr + stdout` contains one of the two known substrings. -/
def missingProviderFailure (r : ProcResult) : Bool :=
  let combined := r.stderr ++ r.stdout
  strContains combined "Missing required provider" ||
    strContains combined "provider registry.terraform.io"

/-- The tail of `validate_terraform`: `json.loads(result.stdout)` with a
bare-`except` fallback to `{"raw_output": result.stdout}`, then the final
result dict `{"success": returncode == 0, "output": ..., "stderr": ...}`. -/
def validateResultDict (w : TfWorld) (r : ProcResult) : PyVal :=
  let output :=
    match w.jsonParse r.stdout with
    | some j => j
    | Option.none => .dict [("raw_output", .str r.stdout)]
  .dict [("success", .bool (r.returncode = 0)),
         ("output", output),
         ("stderr", .str r.stderr)]

/-- The early return of `validate_terraform` when the remediation
`terraform init` itself failed. -/
def initFailedDict (r : ProcResult) : PyVal :=
  .dict [("success", .bool false),
         ("error", .str ("Terraform init failed: " ++ r.stderr)),
         ("stderr", .str r.stderr),
         ("stdout", .str r.stdout)]

/-- `validate_terraform(path)` (opa_tools.py): run `terraform validate
-json`; if it failed and the combined output matches a known
missing-provider substring, run `terraform init` once and, when the init
succeeded, rerun the validation once and report that rerun; when the init
failed, return the init-failure dict; any other failure (or success) is
reported as-is with no further subprocess.  Returns the result dict and the
ordered trace of subprocess calls. -/
def validate_terraform (w : TfWorld) (path : String) : PyVal × List SubprocCall :=
  let r1 := w.validate1
  if r1.returncode ≠ 0 ∧ missingProviderFailure r1 then
    if w.init.returncode = 0 then
      (validateResultDict w w.validate2,
       [terraformValidateCall path, terraformInitCall path, terraformValidateCall path])
    else
      (initFailedDict w.init,
       [terraformValidateCall path, terraformInitCall path])
  else
    (validateResultDict w r1, [terraformValidateCall path])

/-! ## `run_opa_eval` (opa_tools.py) -/

/-- World for one `run_opa_eval` run: whether `repo_path/.terraform`
exists, the outcomes of the four possible subprocess calls, whether
writing `tfplan.json` succeeds (`false` models an `OSError` raised by
`open`/`write`), and `json.loads` on the OPA stdout (`Option.none` models
a `JSONDecodeError`). -/
structure OpaWorld where
  terraformDirExists : Bool
  init : ProcResult
  plan : ProcResult
  showJson : ProcResult
  writeOk : Bool
  opa : ProcResult
  jsonParse : String → Option PyVal

/-- A step-failure return of `run_opa_eval`: `{"error": label + stderr,
"success": False, "stderr": ..., "stdout": ...}`. -/
def stepFailureDict (label : String) (r : ProcResult) : PyVal :=
  .dict [("error", .str (label ++ r.stderr)),
         ("success", .bool false),
         ("stderr", .str r.stderr),
         ("stdout", .str r.stdout)]

/-- The `except Exception` return of `run_opa_eval`: `{"error": str(e),
"success": False, "exception_type": type(e).__name__}`. -/
def exceptionDict (msg ty : String) : PyVal :=
  .dict [("error", .str msg),
         ("success", .bool false),
         ("exception_type", .str ty)]

/-- The success return of `run_opa_eval`. -/
def opaSuccessDict (repo : String) (out : PyVal) : PyVal :=
  .dict [("success", .bool true),
         ("opa_output", out),
         ("plan_path", .str (repo ++ "/tfplan")),
         ("plan_json_path", .str (repo ++ "/tfplan.json")),
         ("message", .str "OPA evaluation completed successfully")]

/-- The `try` block of `run_opa_eval`: `Except.error` carries a raised
Python exception (message, type name, and the subprocess calls already
issued); `Except.ok` is a normal `return`.  Subprocess failures (non-zero
return codes) are `return`s, not raises. -/
def run_opa_eval_try (w : OpaWorld) (policy_path repo_path : String) :
    Except (String × String × List SubprocCall) (PyVal × List SubprocCall) :=
  let initCalls : List SubprocCall :=
    if w.terraformDirExists then [] else [terraformInitCall repo_path]
  if ¬w.terraformDirExists ∧ w.init.returncode ≠ 0 then
    .ok (stepFailureDict "Terraform init failed: " w.init, initCalls)
  else if w.plan.returncode ≠ 0 then
    .ok (stepFailureDict "Terraform plan failed: " w.plan,
         initCalls ++ [terraformPlanCall repo_path])
  else if w.showJson.returncode ≠ 0 then
    .ok (stepFailureDict "Terraform show failed: " w.showJson,
         initCalls ++ [terraformPlanCall repo_path, terraformShowCall repo_path])
  else if w.writeOk = false then
    .error ("could not write tfplan.json", "OSError",
            initCalls ++ [terraformPlanCall repo_path, terraformShowCall repo_path])
  else if w.opa.returncode ≠ 0 then
    .ok (stepFailureDict "OPA evaluation failed: " w.opa,
         initCalls ++ [terraformPlanCall repo_path, terraformShowCall repo_path,
                       opaEvalCall repo_path policy_path (repo_path ++ "/tfplan.json")])
  else
    match w.jsonParse w.opa.stdout with
    | Option.none =>
      .error ("invalid JSON on opa eval stdout", "JSONDecodeError",
              initCalls ++ [terraformPlanCall repo_path, terraformShowCall repo_path,
                            opaEvalCall repo_path policy_path (repo_path ++ "/tfplan.json")])
    | some out =>
      .ok (opaSuccessDict repo_path out,
           initCalls ++ [terraformPlanCall repo_path, terraformShowCall repo_path,
                         opaEvalCall repo_path policy_path (repo_path ++ "/tfplan.json")])

/-- `run_opa_eval(policy_path, repo_path)` (opa_tools.py): the `try` block
wrapped in `except Exception`, which converts any raised exception into the
structured `exceptionDict` — so the function always returns a dict, never
propagates a raise. -/
def run_opa_eval (w : OpaWorld) (policy_path repo_path : String) :
    PyVal × List SubprocCall :=
  match run_opa_eval_try w policy_path repo_path with
  | .ok v => v
  | .error (msg, ty, calls) => (exceptionDict msg ty, calls)

/-- The claim's notion of a structured failure value: the result dict has
`success = False`, some error message, and the failing step's stderr. -/
def isStructuredFailure (res : PyVal) (r : ProcResult) : Prop :=
  pvGet res "success" = some (.bool false) ∧
  (∃ msg : String, pvGet res "error" = some (.str msg)) ∧
  pvGet res "stderr" = some (.str r.stderr)

/-! ## Prompt-driven agents (build_verification, loop control)

`verification_aggregator`, `opa_evaluator` and `loop_decision` are ADK
`Agent`s whose behaviour is fixed by the deterministic pseudocode in their
`instruction` strings; those instructions are embedded here as pure
functions over the relevant shared-state keys. -/

/-- The state keys read by the verification aggregator
(verification_aggregator.py, instruction step 1). -/
structure AggInput where
  terraform_valid : Bool
  terraform_errors : List PyVal
  opa_violations : List PyVal
  opa_violation_count : Nat
  iteration_count : Nat

/-- The fields the aggregator stores back to state
(verification_aggregator.py, instruction step 6). -/
structure VerificationResult where
  build_successful : Bool
  remaining_errors : List PyVal
  error_count : Nat
  iteration_count : Nat
  build_status : String
  deriving Repr

/-- `verification_aggregator` (verification_aggregator.py): instruction
steps 2–6 — `build_successful = terraform_valid AND opa_violation_count ==
0`, `remaining_errors = terraform_errors + opa_violations`, `error_count =
len(remaining_errors)`, `iteration_count += 1`, `build_status = "success"
if build_successful else "failed"`.  A pure total function: no branch
computes `build_successful` any other way and no exception path exists. -/
def verification_aggregator (s : AggInput) : VerificationResult :=
  let build_successful := s.terraform_valid && s.opa_violation_count == 0
  let remaining_errors := s.terraform_errors ++ s.opa_violations
  { build_successful := build_successful
    remaining_errors := remaining_errors
    error_count := remaining_errors.length
    iteration_count := s.iteration_count + 1
    build_status := if build_successful then "success" else "failed" }

/-- The state keys the OPA evaluator agent reads and writes
(opa_evaluator.py, instruction steps 1–5). -/
structure EvalState where
  terraform_valid : Bool
  repo_path : String
  policy_path : String
  opa_output : Option PyVal
  opa_violations : List Violation
  opa_violation_count : Nat
  opa_evaluation_message : String

/-- `opa_evaluator` (opa_evaluator.py): instruction step 1 — when
`terraform_valid` is `False`, write `opa_violations = []`,
`opa_violation_count = 0` and the skipped message, and return without
calling any tool; otherwise call `run_opa_eval`, parse its `opa_output`
with `parse_opa_json`, and store the results.  Returns the updated state,
the subprocess trace, and the agent's final text output. -/
def opa_evaluator (w : OpaWorld) (s : EvalState) :
    EvalState × List SubprocCall × String :=
  if s.terraform_valid = false then
    ({ s with opa_violations := []
              opa_violation_count := 0
              opa_evaluation_message := "Skipped - Terraform validation failed" },
     [], "OPA evaluation skipped - fix Terraform errors first")
  else
    let res := run_opa_eval w s.policy_path s.repo_path
    let out := (pvGet res.1 "opa_output").getD .none
    let vs := parse_opa_json out
    ({ s with opa_output := some out
              opa_violations := vs
              opa_violation_count := vs.length
              opa_evaluation_message :=
                if vs.length = 0 then "OPA evaluation passed - no violations found"
                else "OPA evaluation failed - violations found" },
     res.2,
     if vs.length = 0 then "OPA evaluation passed - no violations found"
     else "OPA evaluation failed - violations found")

/-! ## Loop control (loop_control.py, orchestrator.py, config.py) -/

/-- `tool_context.actions`: the escalation flag a tool can set, observed by
the `LoopAgent` driver as "stop iterating". -/
structure Actions where
  escalate : Bool
  deriving Repr, DecidableEq

/-- `exit_loop(tool_context)` (loop_control.py): sets
`tool_context.actions.escalate = True` and returns
`{"status": "loop_exited", "message": "Fix loop terminated"}`. -/
def exit_loop (a : Actions) : Actions × PyVal :=
  ({ a with escalate := true },
   .dict [("status", .str "loop_exited"),
          ("message", .str "Fix loop terminated")])

/-- `loop_decision` agent (orchestrator.py): reads only
`build_successful`; when it is `True`, calls `exit_loop` (which sets the
escalate signal); when `False`, outputs `"continue"` and touches nothing. -/
def loop_decision (build_successful : Bool) (a : Actions) : Actions × String :=
  if build_successful then
    ((exit_loop a).1, "exit")
  else
    (a, "continue")

/-- Terminal states of the remediation loop. -/
inductive LoopTerminal where
  | converged
  | exhausted
  deriving Repr, DecidableEq

/-- The `LoopAgent` driver from iteration `i` with `fuel` iterations left:
each iteration ends with `loop_decision` reading that iteration's
`build_successful` (given by `succ`); an escalate signal stops the loop as
`converged`, running out of the iteration budget stops it as `exhausted`.
Returns the terminal state and the number of iterations executed. -/
def runFrom (succ : Nat → Bool) : Nat → Nat → LoopTerminal × Nat
  | _, 0 => (.exhausted, 0)
  | i, fuel + 1 =>
    if ((loop_decision (succ i) ⟨false⟩).1).escalate then
      (.converged, 1)
    else
      let r := runFrom succ (i + 1) fuel
      (r.1, r.2 + 1)

/-- One whole run of `fix_loop` (orchestrator.py): iterate from iteration 0
with the configured ceiling as budget. -/
def fix_loop_run (succ : Nat → Bool) (ceiling : Nat) : LoopTerminal × Nat :=
  runFrom succ 0 ceiling

/-- ASCII whitespace, as stripped by Python `int()`. -/
def isSpaceChar (c : Char) : Bool :=
  c = ' ' || c = '\t' || c = '\n' || c = '\r'

/-- Strip leading and trailing whitespace characters. -/
def stripChars (l : List Char) : List Char :=
  ((l.dropWhile isSpaceChar).reverse.dropWhile isSpaceChar).reverse

/-- A decimal digit. -/
def isDigitChar (c : Char) : Bool :=
  '0' ≤ c && c ≤ '9'

/-- Numeric value of a digit list, most significant first. -/
def digitsToNat (l : List Char) : Nat :=
  l.foldl (fun acc c => acc * 10 + (c.toNat - 48)) 0

/-- Python `int(s)` restricted to plain decimal literals: strip
whitespace, optional sign, then decimal digits; anything else raises
`ValueError`, modelled as `Option.none`. -/
def parsePyInt (s : String) : Option Int :=
  let t := stripChars s.data
  let (sign, digits) :=
    match t with
    | '-' :: rest => ((-1 : Int), rest)
    | '+' :: rest => ((1 : Int), rest)
    | _ => ((1 : Int), t)
  if digits.length > 0 ∧ digits.all isDigitChar then
    some (sign * (digitsToNat digits : Nat))
  else
    Option.none

/-- `get_max_iterations()` (config.py): `int(os.getenv("MAX_ITERATIONS",
"5"))`, falling back to 5 on `ValueError`.  The environment is modelled as
a partial map from variable name to value. -/
def get_max_iterations (env : String → Option String) : Int :=
  match parsePyInt ((env "MAX_ITERATIONS").getD "5") with
  | some n => n
  | Option.none => 5

/-- The `max_iterations` argument of the `fix_loop` `LoopAgent`
(orchestrator.py): `get_max_iterations() * 2`. -/
def fix_loop_max_iterations (env : String → Option String) : Int :=
  get_max_iterations env * 2

/-! ## Spec-asserted property about timeouts

The design document asserts that every external subprocess call applies
an explicit timeout.  The property is stated here exactly as claimed, over
the call traces of the embedded functions, to be settled against the
source. -/

/-- The asserted property: every subprocess call issued by the syntax
validator or by the plan-generation/policy-engine pipeline carries an
explicit timeout. -/
def everySubprocessCallHasExplicitTimeout : Prop :=
  (∀ (w : TfWorld) (path : String) (c : SubprocCall),
      c ∈ (validate_terraform w path).2 → c.timeout ≠ Option.none) ∧
  (∀ (w : OpaWorld) (policy repo : String) (c : SubprocCall),
      c ∈ (run_opa_eval w policy repo).2 → c.timeout ≠ Option.none)

/-! ## Concrete fixtures used to instantiate the theorems -/

/-- A subprocess outcome: clean exit. -/
def okProc : ProcResult := ⟨0, "", ""⟩

/-- A subprocess outcome: failure whose output matches the known
missing-provider substring. -/
def missingProviderProc : ProcResult :=
  ⟨1, "", "Error: Missing required provider aws"⟩

/-- A subprocess outcome: generic failure. -/
def failProc : ProcResult := ⟨1, "boom-out", "boom-err"⟩

/-- A `validate_terraform` world whose first check fails with the
missing-provider signature and whose init and retried check succeed. -/
def retryTfWorld : TfWorld :=
  ⟨missingProviderProc, okProc, okProc, fun _ => Option.none⟩

/-- A `validate_terraform` world whose first check simply succeeds. -/
def plainTfWorld : TfWorld :=
  ⟨okProc, okProc, okProc, fun _ => Option.none⟩

/-- A `run_opa_eval` world where `.terraform` is absent and the
`terraform init` fails. -/
def initFailOpaWorld : OpaWorld :=
  ⟨false, failProc, okProc, okProc, true, okProc, fun _ => Option.none⟩

/-- A `run_opa_eval` world where everything succeeds (the OPA stdout
parses to an empty dict). -/
def quietOpaWorld : OpaWorld :=
  ⟨true, okProc, okProc, okProc, true, okProc, fun _ => some (.dict [])⟩

/-- An evaluator-stage state in which the previous syntax validation
failed, with stale policy results still in state. -/
def skipEvalState : EvalState :=
  ⟨false, "/repo", "/policies", Option.none,
   [⟨"old", .str "v", "high"⟩], 3, "old"⟩

/-- The evaluator output of the spec's parser scenario: one package
exposing `deny:["a","b"]` and another exposing `violation:["c"]`. -/
def twoPackageOutput : PyVal :=
  .dict [("result", .list [
    .dict [("expressions", .list [
      .dict [("value", .dict [
        ("pkgA", .dict [("deny", .list [.str "a", .str "b"])]),
        ("pkgB", .dict [("violation", .list [.str "c"])])])]])]])]

/-- A malformed evaluator output: the first expression yields one denial,
the second expression is an integer, so the traversal raises
`AttributeError` after extracting one violation. -/
def malformedOutput : PyVal :=
  .dict [("result", .list [
    .dict [("expressions", .list [
      .dict [("value", .dict [("p", .dict [("deny", .list [.str "x"])])])],
      .int 0])]])]

/-! ## Helper lemmas on the loop driver -/

/-- The decision stage escalates exactly when this iteration's
`build_successful` is true (or the flag was already set). -/
theorem loop_decision_escalate (b : Bool) (a : Actions) :
    ((loop_decision b a).1).escalate = (b || a.escalate) := by
  cases b <;> simp [loop_decision, exit_loop]

/-- When no iteration within the budget observes success, the driver runs
exactly `fuel` iterations and ends `exhausted`. -/
theorem runFrom_exhausted (succ : Nat → Bool) :
    ∀ (fuel i : Nat), (∀ k, k < fuel → succ (i + k) = false) →
      runFrom succ i fuel = (.exhausted, fuel) := by
  intro fuel
  induction fuel with
  | zero => intro i _; rfl
  | succ n ih =>
    intro i h
    have h0 : succ i = false := by simpa using h 0 n.succ_pos
    have hrec := ih (i + 1) (fun k hk => by
      have hk1 := h (k + 1) (Nat.succ_lt_succ hk)
      have e : i + (k + 1) = i + 1 + k := by omega
      rwa [e] at hk1)
    simp [runFrom, loop_decision_escalate, h0, hrec]

/-- The driver converges exactly when some iteration within the budget
observes success. -/
theorem runFrom_converged_iff (succ : Nat → Bool) :
    ∀ (fuel i : Nat),
      (runFrom succ i fuel).1 = LoopTerminal.converged ↔
        ∃ k, k < fuel ∧ succ (i + k) = true := by
  intro fuel
  induction fuel with
  | zero =>
    intro i
    simp [runFrom]
  | succ n ih =>
    intro i
    cases h0 : succ i with
    | true =>
      have hrun : runFrom succ i (n + 1) = (.converged, 1) := by
        simp [runFrom, loop_decision_escalate, h0]
      rw [hrun]
      constructor
      · intro _
        exact ⟨0, n.succ_pos, by simpa using h0⟩
      · intro _
        rfl
    | false =>
      have hrun : (runFrom succ i (n + 1)).1 = (runFrom succ (i + 1) n).1 := by
        simp [runFrom, loop_decision_escalate, h0]
      rw [hrun, ih (i + 1)]
      constructor
      · rintro ⟨k, hk, hs⟩
        exact ⟨k + 1, Nat.succ_lt_succ hk,
          by rwa [show i + (k + 1) = i + 1 + k by omega]⟩
      · rintro ⟨k, hk, hs⟩
        cases k with
        | zero =>
          rw [Nat.add_zero, h0] at hs
          cases hs
        | succ m =>
          exact ⟨m, Nat.lt_of_succ_lt_succ hk,
            by rwa [show i + 1 + m = i + (m + 1) by omega]⟩

/-- The driver never executes more iterations than its budget. -/
theorem runFrom_count_le (succ : Nat → Bool) :
    ∀ (fuel i : Nat), (runFrom succ i fuel).2 ≤ fuel := by
  intro fuel
  induction fuel with
  | zero => intro i; exact Nat.le_refl 0
  | succ n ih =>
    intro i
    by_cases h : ((loop_decision (succ i) ⟨false⟩).1).escalate = true
    · simp [runFrom, h]
    · simp only [runFrom, Bool.not_eq_true] at h ⊢
      simp [h]
      exact ih (i + 1)

/-! ## Claim theorems -/

/-- C1: every run of the verification aggregator computes
`build_successful` as `terraform_valid AND opa_violation_count == 0`
(the spec's `syntax_valid AND policy_violation_count == 0`), and only that
way: the aggregator is a total pure function with no exception path, and
its `build_successful` field is true exactly when both conditions hold. -/
theorem verification_aggregator_invariant (s : AggInput) :
    (verification_aggregator s).build_successful
        = (s.terraform_valid && s.opa_violation_count == 0) ∧
    ((verification_aggregator s).build_successful = true ↔
        s.terraform_valid = true ∧ s.opa_violation_count = 0) := by
  refine ⟨rfl, ?_⟩
  simp [verification_aggregator]

/-- Witness for C1 at a concrete state. -/
theorem verification_aggregator_invariant_witness :
    (verification_aggregator ⟨true, [], [], 0, 3⟩).build_successful = true :=
  (verification_aggregator_invariant ⟨true, [], [], 0, 3⟩).2.mpr ⟨rfl, rfl⟩

/-- C2: when `terraform_valid` is false at the start of the policy
evaluator stage, the evaluator issues no subprocess call (empty trace),
writes `opa_violations = []`, `opa_violation_count = 0` and the skipped
message to state, and returns the skipped summary. -/
theorem opa_evaluator_skip (w : OpaWorld) (s : EvalState)
    (h : s.terraform_valid = false) :
    opa_evaluator w s =
      ({ s with opa_violations := []
                opa_violation_count := 0
                opa_evaluation_message := "Skipped - Terraform validation failed" },
       [], "OPA evaluation skipped - fix Terraform errors first") := by
  simp [opa_evaluator, h]

/-- Witness for C2 at a concrete world and state. -/
theorem opa_evaluator_skip_witness :
    opa_evaluator quietOpaWorld skipEvalState =
      ({ skipEvalState with
          opa_violations := []
          opa_violation_count := 0
          opa_evaluation_message := "Skipped - Terraform validation failed" },
       [], "OPA evaluation skipped - fix Terraform errors first") :=
  opa_evaluator_skip quietOpaWorld skipEvalState rfl

/-- C3: when the syntax check fails and its combined output matches a
known missing-provider substring, `validate_terraform` runs exactly one
init subprocess and retries the check exactly once, returning the retried
result (or the init-failure result when the init itself failed); when the
output does not match, the original result is returned as-is with no init
and no retry. -/
theorem validate_terraform_retry_policy (w : TfWorld) (path : String) :
    (w.validate1.returncode ≠ 0 → missingProviderFailure w.validate1 = true →
      (w.init.returncode = 0 →
        validate_terraform w path =
          (validateResultDict w w.validate2,
           [terraformValidateCall path, terraformInitCall path,
            terraformValidateCall path])) ∧
      (w.init.returncode ≠ 0 →
        validate_terraform w path =
          (initFailedDict w.init,
           [terraformValidateCall path, terraformInitCall path]))) ∧
    (missingProviderFailure w.validate1 = false →
      validate_terraform w path =
        (validateResultDict w w.validate1, [terraformValidateCall path])) := by
  constructor
  · intro h1 h2
    constructor
    · intro h3
      simp [validate_terraform, h1, h2, h3]
    · intro h3
      simp [validate_terraform, h1, h2, h3]
  · intro h2
    simp [validate_terraform, h2]

/-- Witness for C3: the matching-failure world performs
validate–init–validate and returns the retried result. -/
theorem validate_terraform_retry_policy_witness :
    validate_terraform retryTfWorld "/repo" =
      (validateResultDict retryTfWorld retryTfWorld.validate2,
       [terraformValidateCall "/repo", terraformInitCall "/repo",
        terraformValidateCall "/repo"]) :=
  ((validate_terraform_retry_policy retryTfWorld "/repo").1
    (by decide) (by decide)).1 rfl

/-- C4: on an evaluator result with one package exposing
`deny:["a","b"]` and another exposing `violation:["c"]`, the parser
returns exactly three violations with messages `"a"`, `"b"`, `"c"`, each
with severity `"high"`. -/
theorem parse_opa_json_two_packages :
    parse_opa_json twoPackageOutput =
      [⟨"pkgA", .str "a", "high"⟩, ⟨"pkgA", .str "b", "high"⟩,
       ⟨"pkgB", .str "c", "high"⟩] := rfl

/-- C5: the parser never raises: for every input it returns exactly the
violations accumulated by the traversal before any exception (the
`try/except` swallows the exception); structures with no `result` key, or
that are not even dicts, yield `[]`; a malformed structure that raises
mid-traversal still returns the violations extracted up to that point. -/
theorem parse_opa_json_never_raises :
    (∀ v : PyVal, parse_opa_json v = (parseCore v).1) ∧
    (∀ kvs : List (String × PyVal), hasKey kvs "result" = false →
        parse_opa_json (.dict kvs) = []) ∧
    parse_opa_json (.dict []) = [] ∧
    parse_opa_json (.int 7) = [] ∧
    parse_opa_json (.dict [("result", .int 3)]) = [] ∧
    parseCore malformedOutput =
      ([⟨"p", .str "x", "high"⟩], some .attributeError) ∧
    parse_opa_json malformedOutput = [⟨"p", .str "x", "high"⟩] := by
  refine ⟨fun v => rfl, ?_, rfl, rfl, rfl, rfl, rfl⟩
  intro kvs h
  simp [parse_opa_json, parseCore, pyContains, h]

/-- Witness for C5 at a concrete result-free dict. -/
theorem parse_opa_json_never_raises_witness :
    parse_opa_json (.dict [("other", .int 1)]) = [] :=
  parse_opa_json_never_raises.2.1 [("other", .int 1)] rfl

/-- C6: the loop reaches `converged` exactly when some iteration within
the budget observed `build_successful = True` at the decision stage;
termination is signalled by `exit_loop` unconditionally setting the
escalate flag, which the decision agent triggers exactly on
`build_successful` and which the driver observes as "stop iterating". -/
theorem fix_loop_converged_iff (succ : Nat → Bool) (ceiling : Nat) :
    ((fix_loop_run succ ceiling).1 = LoopTerminal.converged ↔
        ∃ i, i < ceiling ∧ succ i = true) ∧
    (∀ a : Actions, (exit_loop a).1.escalate = true) ∧
    (∀ a : Actions, loop_decision true a = ((exit_loop a).1, "exit")) ∧
    (∀ a : Actions, loop_decision false a = (a, "continue")) := by
  refine ⟨?_, fun a => rfl, fun a => rfl, fun a => rfl⟩
  have h := runFrom_converged_iff succ ceiling 0
  simpa [fix_loop_run] using h

/-- Witness for C6: success observed at iteration 1 within a budget of 4
makes the loop converge. -/
theorem fix_loop_converged_iff_witness :
    (fix_loop_run (fun i => i == 1) 4).1 = LoopTerminal.converged :=
  (fix_loop_converged_iff (fun i => i == 1) 4).1.mpr ⟨1, by decide, by decide⟩

/-- C7: every subprocess failure in steps 1–4 of `run_opa_eval` (init,
plan, show, opa) returns a structured value with `success=False`, an error
message, and the failing step's stderr; raised exceptions never propagate:
the `except` wrapper converts them into a returned dict. -/
theorem run_opa_eval_subprocess_failures (w : OpaWorld) (policy repo : String) :
    (w.terraformDirExists = false → w.init.returncode ≠ 0 →
      run_opa_eval w policy repo =
        (stepFailureDict "Terraform init failed: " w.init,
         [terraformInitCall repo]) ∧
      isStructuredFailure (run_opa_eval w policy repo).1 w.init) ∧
    ((w.terraformDirExists = true ∨ w.init.returncode = 0) →
      w.plan.returncode ≠ 0 →
      (run_opa_eval w policy repo).1 =
        stepFailureDict "Terraform plan failed: " w.plan ∧
      isStructuredFailure (run_opa_eval w policy repo).1 w.plan) ∧
    ((w.terraformDirExists = true ∨ w.init.returncode = 0) →
      w.plan.returncode = 0 → w.showJson.returncode ≠ 0 →
      (run_opa_eval w policy repo).1 =
        stepFailureDict "Terraform show failed: " w.showJson ∧
      isStructuredFailure (run_opa_eval w policy repo).1 w.showJson) ∧
    ((w.terraformDirExists = true ∨ w.init.returncode = 0) →
      w.plan.returncode = 0 → w.showJson.returncode = 0 → w.writeOk = true →
      w.opa.returncode ≠ 0 →
      (run_opa_eval w policy repo).1 =
        stepFailureDict "OPA evaluation failed: " w.opa ∧
      isStructuredFailure (run_opa_eval w policy repo).1 w.opa) ∧
    (∀ r, run_opa_eval_try w policy repo = Except.ok r →
      run_opa_eval w policy repo = r) ∧
    (∀ e, run_opa_eval_try w policy repo = Except.error e →
      run_opa_eval w policy repo = (exceptionDict e.1 e.2.1, e.2.2)) := by
  refine ⟨?_, ?_, ?_, ?_, ?_, ?_⟩
  · intro h1 h2
    constructor
    · simp [run_opa_eval, run_opa_eval_try, h1, h2]
    · simp [run_opa_eval, run_opa_eval_try, h1, h2, isStructuredFailure,
        stepFailureDict, pvGet, dictGet]
  · intro h1 h2
    rcases h1 with h | h <;>
      exact ⟨by simp [run_opa_eval, run_opa_eval_try, h, h2],
             by simp [run_opa_eval, run_opa_eval_try, h, h2,
               isStructuredFailure, stepFailureDict, pvGet, dictGet]⟩
  · intro h1 h2 h3
    rcases h1 with h | h <;>
      exact ⟨by simp [run_opa_eval, run_opa_eval_try, h, h2, h3],
             by simp [run_opa_eval, run_opa_eval_try, h, h2, h3,
               isStructuredFailure, stepFailureDict, pvGet, dictGet]⟩
  · intro h1 h2 h3 h4 h5
    rcases h1 with h | h <;>
      exact ⟨by simp [run_opa_eval, run_opa_eval_try, h, h2, h3, h4, h5],
             by simp [run_opa_eval, run_opa_eval_try, h, h2, h3, h4, h5,
               isStructuredFailure, stepFailureDict, pvGet, dictGet]⟩
  · intro r h
    simp [run_opa_eval, h]
  · intro e h
    obtain ⟨msg, ty, calls⟩ := e
    simp [run_opa_eval, h]

/-- Witness for C7: with `.terraform` absent and a failing init, the
structured init-failure dict is returned. -/
theorem run_opa_eval_subprocess_failures_witness :
    run_opa_eval initFailOpaWorld "/pol" "/repo" =
      (stepFailureDict "Terraform init failed: " initFailOpaWorld.init,
       [terraformInitCall "/repo"]) :=
  ((run_opa_eval_subprocess_failures initFailOpaWorld "/pol" "/repo").1
    rfl (by decide)).1

/-- C8 counterexample: the asserted property "every external subprocess
call applies an explicit timeout" is false: the syntax validator's
`subprocess.run` call passes no `timeout=` argument, so its recorded
timeout is `Option.none`. -/
theorem subprocess_timeout_claim_refuted :
    ¬ everySubprocessCallHasExplicitTimeout := by
  intro h
  have ht : (validate_terraform plainTfWorld "/repo").2 =
      [terraformValidateCall "/repo"] := by decide
  exact h.1 plainTfWorld "/repo" (terraformValidateCall "/repo")
    (by rw [ht]; exact List.mem_singleton.mpr rfl) rfl

/-- C8 (amended): no subprocess call made by the core applies any
timeout: every call in every trace of `validate_terraform` and
`run_opa_eval` carries `timeout = Option.none`. -/
theorem no_subprocess_call_applies_timeout :
    (∀ (w : TfWorld) (path : String) (c : SubprocCall),
        c ∈ (validate_terraform w path).2 → c.timeout = Option.none) ∧
    (∀ (w : OpaWorld) (policy repo : String) (c : SubprocCall),
        c ∈ (run_opa_eval w policy repo).2 → c.timeout = Option.none) := by
  constructor
  · intro w path c hc
    simp only [validate_terraform] at hc
    split_ifs at hc <;>
      simp only [List.mem_cons, List.mem_singleton, List.not_mem_nil,
        or_false] at hc <;>
      rcases hc with rfl | rfl | rfl <;> rfl
  · intro w policy repo c hc
    simp only [run_opa_eval, run_opa_eval_try] at hc
    by_cases hD : w.terraformDirExists <;>
      simp only [hD, if_true, if_false, ite_true, ite_false] at hc <;>
      split_ifs at hc <;>
      (try rcases hJ : w.jsonParse w.opa.stdout with _ | out) <;>
      simp only [hJ, List.mem_append, List.mem_cons, List.mem_singleton,
        List.not_mem_nil, or_false, false_or] at hc <;>
      rcases hc with rfl | rfl | rfl | rfl <;> rfl

/-- Witness for C8 (amended): the syntax validator's call in a concrete
trace has no timeout. -/
theorem no_subprocess_call_applies_timeout_witness :
    (terraformValidateCall "/repo").timeout = Option.none := by
  have ht : (validate_terraform plainTfWorld "/repo").2 =
      [terraformValidateCall "/repo"] := by decide
  exact no_subprocess_call_applies_timeout.1 plainTfWorld "/repo"
    (terraformValidateCall "/repo") (by rw [ht]; exact List.mem_singleton.mpr rfl)

/-- C9: the loop ceiling is twice the configured base count, with the base
defaulting to 5 when `MAX_ITERATIONS` is unset (so the ceiling defaults to
10); when no iteration within the ceiling observes success the loop ends
`exhausted` after exactly the ceiling many iterations, and the driver never
executes more iterations than its budget. -/
theorem fix_loop_ceiling_exhaustion (env : String → Option String)
    (succ : Nat → Bool) :
    fix_loop_max_iterations env = get_max_iterations env * 2 ∧
    (env "MAX_ITERATIONS" = Option.none → fix_loop_max_iterations env = 10) ∧
    ((∀ i, i < (fix_loop_max_iterations env).toNat → succ i = false) →
      fix_loop_run succ (fix_loop_max_iterations env).toNat =
        (LoopTerminal.exhausted, (fix_loop_max_iterations env).toNat)) ∧
    (∀ ceiling : Nat, (fix_loop_run succ ceiling).2 ≤ ceiling) := by
  refine ⟨rfl, ?_, ?_, ?_⟩
  · intro h
    unfold fix_loop_max_iterations get_max_iterations
    rw [h]
    decide
  · intro h
    have hx := runFrom_exhausted succ (fix_loop_max_iterations env).toNat 0
      (fun k hk => by simpa using h k (by simpa using hk))
    simpa [fix_loop_run] using hx
  · intro ceiling
    exact runFrom_count_le succ ceiling 0

/-- Witness for C9: with an unset environment the ceiling is 10, and a
never-successful run exhausts exactly 10 iterations. -/
theorem fix_loop_ceiling_exhaustion_witness :
    fix_loop_max_iterations (fun _ => Option.none) = 10 ∧
    fix_loop_run (fun _ => false) 10 = (LoopTerminal.exhausted, 10) := by
  have h := fix_loop_ceiling_exhaustion (fun _ => Option.none) (fun _ => false)
  refine ⟨h.2.1 rfl, ?_⟩
  have h3 := h.2.2.1 (fun i _ => rfl)
  rw [h.2.1 rfl] at h3
  exact h3

/-- C10: when a package's content contains a `deny` key, the parser takes
the `deny` branch (`elif` makes it shadow any `violation` key, so those
messages are ignored), extracting exactly the denials; and a `deny` value
that is not a list contributes no violations at all. -/
theorem packageViolations_deny_shadows_violation (pkg : String)
    (kvs : List (String × PyVal)) (d : PyVal)
    (hd : dictGet kvs "deny" = some d)
    (_hv : hasKey kvs "violation" = true) :
    packageViolations pkg (.dict kvs) = (parseDenials pkg d, Option.none) ∧
    ((∀ ds : List PyVal, d ≠ PyVal.list ds) → parseDenials pkg d = []) := by
  have hk : hasKey kvs "deny" = true := by simp [hasKey, hd]
  refine ⟨by simp [packageViolations, hk, hd], ?_⟩
  intro h
  cases d with
  | list ds => exact absurd rfl (h ds)
  | str s => rfl
  | int n => rfl
  | bool b => rfl
  | none => rfl
  | dict kvs2 => rfl

/-- Witness for C10 at a concrete package whose content has both keys and
a non-list `deny` value: nothing is extracted, the `violation` list is
ignored. -/
theorem packageViolations_deny_shadows_violation_witness :
    packageViolations "p"
        (.dict [("deny", .str "notalist"), ("violation", .list [.str "z"])]) =
      ([], Option.none) := by
  have h := packageViolations_deny_shadows_violation "p"
      [("deny", PyVal.str "notalist"), ("violation", PyVal.list [PyVal.str "z"])]
      (PyVal.str "notalist") rfl rfl
  rw [h.1, h.2 (fun ds hh => PyVal.noConfusion hh)]

end SelfHealing
